import Mathlib

/-!
# Verification of the trouble_audio LE-Audio model

Shallow embedding of the Published Audio Capabilities (PAC) data model, the
Audio Stream Endpoint (ASE) state machine and the PACS write dispatcher of the
trouble_audio repository, together with proofs about the embedded definitions.

Conventions used throughout:
* Rust machine integers are embedded as `Nat`; where u8/u32 overflow matters
  the reduction `% 256` / `% 2 ^ 32` is written explicitly.
* Rust `panic!` in a constructor is embedded by returning `Option` (`none` on
  the panicking path); wire-decode failures return `Except` with an explicit
  error value, mirroring `Result<_, FromGattError>`.
* `heapless::Vec<T, N>` is embedded as `List T` (the capacity bound is not
  needed by any statement below).
* Byte buffers (`&[u8]`) are embedded as `List Nat` of byte values.
-/

/-- Wire-decode error type of `trouble_host::types::gatt_traits::FromGattError`:
the only variant used by this code base is `InvalidLength`. -/
inductive FromGattError
  | invalidLength
deriving DecidableEq

/-- ATT error codes used by the PACS/ASCS event handlers
(`trouble_host::prelude::AttErrorCode`, restricted to the codes the
repository produces). -/
inductive AttErrorCode
  | writeNotPermitted
  | writeRequestRejected
  | invalidHandle
deriving DecidableEq

/-- `AudioLocation` from `src/generic_audio.rs`: a fieldless enum whose
discriminants are the 28 single-position bitmask values plus `Mono = 0` and
the `Undefined` sentinel (implicit discriminant `0x08000001`, one past
`RightSurround`). -/
inductive AudioLocation
  | Mono
  | FrontLeft
  | FrontRight
  | FrontCenter
  | LowFrequencyEffects1
  | BackLeft
  | BackRight
  | FrontLeftOfCenter
  | FrontRightOfCenter
  | BackCenter
  | LowFrequencyEffects2
  | SideLeft
  | SideRight
  | TopFrontLeft
  | TopFrontRight
  | TopFrontCenter
  | TopCenter
  | TopBackLeft
  | TopBackRight
  | TopSideLeft
  | TopSideRight
  | TopBackCenter
  | BottomFrontCenter
  | BottomFrontLeft
  | BottomFrontRight
  | FrontLeftWide
  | FrontRightWide
  | LeftSurround
  | RightSurround
  | Undefined
deriving DecidableEq

instance : Inhabited AudioLocation := ⟨AudioLocation.Mono⟩

/-- The Rust discriminant of each `AudioLocation` variant. -/
def AudioLocation.value : AudioLocation → Nat
  | .Mono => 0x00000000
  | .FrontLeft => 0x00000001
  | .FrontRight => 0x00000002
  | .FrontCenter => 0x00000004
  | .LowFrequencyEffects1 => 0x00000008
  | .BackLeft => 0x00000010
  | .BackRight => 0x00000020
  | .FrontLeftOfCenter => 0x00000040
  | .FrontRightOfCenter => 0x00000080
  | .BackCenter => 0x00000100
  | .LowFrequencyEffects2 => 0x00000200
  | .SideLeft => 0x00000400
  | .SideRight => 0x00000800
  | .TopFrontLeft => 0x00001000
  | .TopFrontRight => 0x00002000
  | .TopFrontCenter => 0x00004000
  | .TopCenter => 0x00008000
  | .TopBackLeft => 0x00010000
  | .TopBackRight => 0x00020000
  | .TopSideLeft => 0x00040000
  | .TopSideRight => 0x00080000
  | .TopBackCenter => 0x00100000
  | .BottomFrontCenter => 0x00200000
  | .BottomFrontLeft => 0x00400000
  | .BottomFrontRight => 0x00800000
  | .FrontLeftWide => 0x01000000
  | .FrontRightWide => 0x02000000
  | .LeftSurround => 0x04000000
  | .RightSurround => 0x08000000
  | .Undefined => 0x08000001

/-- The little-endian 32-bit read performed by `AudioLocation::from_gatt`:
`(data[0] as u32) | ((data[1] as u32) << 8) | ((data[2] as u32) << 16)
 | ((data[3] as u32) << 24)`. -/
def le32 (data : List Nat) : Nat :=
  data.getD 0 0 ||| (data.getD 1 0 <<< 8) ||| (data.getD 2 0 <<< 16) |||
    (data.getD 3 0 <<< 24)

/-- The `match value` arms of `AudioLocation::from_gatt`
(`src/generic_audio.rs`): the 29 defined discriminants map to their variant,
everything else to `Undefined`. -/
def AudioLocation.ofValue : Nat → AudioLocation
  | 0x00000000 => .Mono
  | 0x00000001 => .FrontLeft
  | 0x00000002 => .FrontRight
  | 0x00000004 => .FrontCenter
  | 0x00000008 => .LowFrequencyEffects1
  | 0x00000010 => .BackLeft
  | 0x00000020 => .BackRight
  | 0x00000040 => .FrontLeftOfCenter
  | 0x00000080 => .FrontRightOfCenter
  | 0x00000100 => .BackCenter
  | 0x00000200 => .LowFrequencyEffects2
  | 0x00000400 => .SideLeft
  | 0x00000800 => .SideRight
  | 0x00001000 => .TopFrontLeft
  | 0x00002000 => .TopFrontRight
  | 0x00004000 => .TopFrontCenter
  | 0x00008000 => .TopCenter
  | 0x00010000 => .TopBackLeft
  | 0x00020000 => .TopBackRight
  | 0x00040000 => .TopSideLeft
  | 0x00080000 => .TopSideRight
  | 0x00100000 => .TopBackCenter
  | 0x00200000 => .BottomFrontCenter
  | 0x00400000 => .BottomFrontLeft
  | 0x00800000 => .BottomFrontRight
  | 0x01000000 => .FrontLeftWide
  | 0x02000000 => .FrontRightWide
  | 0x04000000 => .LeftSurround
  | 0x08000000 => .RightSurround
  | _ => .Undefined

/-- `AudioLocation::from_gatt` (`src/generic_audio.rs`): reject any buffer
whose length is not `SIZE = 4`, otherwise decode the little-endian u32 and
map it through the discriminant match; every 4-byte buffer yields `Ok`. -/
def AudioLocation.fromGatt (data : List Nat) : Except FromGattError AudioLocation :=
  if data.length ≠ 4 then .error .invalidLength
  else .ok (AudioLocation.ofValue (le32 data))

/-- `AudioLocation::to_gatt` (`src/generic_audio.rs`) reads the 4 bytes of the
enum's memory representation; on the little-endian targets this crate builds
for, that is the little-endian byte order of the u32 discriminant, which is
what this embedding writes out explicitly. -/
def AudioLocation.toGatt (a : AudioLocation) : List Nat :=
  [a.value % 256, a.value / 256 % 256, a.value / 65536 % 256,
    a.value / 16777216 % 256]

/-- The list of the 29 defined `AudioLocation` wire values: zero (`Mono`) and
the 28 single-position bits. -/
def definedAudioLocationValues : List Nat :=
  [0x00000000, 0x00000001, 0x00000002, 0x00000004, 0x00000008, 0x00000010,
   0x00000020, 0x00000040, 0x00000080, 0x00000100, 0x00000200, 0x00000400,
   0x00000800, 0x00001000, 0x00002000, 0x00004000, 0x00008000, 0x00010000,
   0x00020000, 0x00040000, 0x00080000, 0x00100000, 0x00200000, 0x00400000,
   0x00800000, 0x01000000, 0x02000000, 0x04000000, 0x08000000]

/-- `ContextType` from `src/generic_audio.rs`: a 16-bit bitmask enum of usage
contexts with the discriminants given in the source. -/
inductive ContextType
  | Prohibited
  | Unspecified
  | Conversational
  | Media
  | Game
  | Instructional
  | VoiceAssistants
  | Live
  | SoundEffects
deriving DecidableEq

instance : Inhabited ContextType := ⟨ContextType.Prohibited⟩

/-- The Rust discriminant of each `ContextType` variant. -/
def ContextType.value : ContextType → Nat
  | .Prohibited => 0x0000
  | .Unspecified => 0x0001
  | .Conversational => 0x0002
  | .Media => 0x0004
  | .Game => 0x0008
  | .Instructional => 0x0010
  | .VoiceAssistants => 0x0020
  | .Live => 0x0040
  | .SoundEffects => 0x0080

/-- Modelled from the spec: the source declares `ContextType` but contains no
2-byte encode for it; §6 of the specification fixes the wire format as a
2-byte little-endian bitmask, so the encoding is the little-endian bytes of
the discriminant. -/
def ContextType.encode (c : ContextType) : List Nat :=
  [c.value % 256, c.value / 256 % 256]

/-- The little-endian 16-bit read of a 2-byte buffer. -/
def le16 (data : List Nat) : Nat :=
  data.getD 0 0 ||| (data.getD 1 0 <<< 8)

/-- Modelled from the spec: inverse of `ContextType.encode` (no decoder exists
in the source); buffers that are not 2 bytes long or whose value is not a
defined discriminant do not decode. -/
def ContextType.decode (data : List Nat) : Option ContextType :=
  if data.length ≠ 2 then none
  else
    match le16 data with
    | 0x0000 => some .Prohibited
    | 0x0001 => some .Unspecified
    | 0x0002 => some .Conversational
    | 0x0004 => some .Media
    | 0x0008 => some .Game
    | 0x0010 => some .Instructional
    | 0x0020 => some .VoiceAssistants
    | 0x0040 => some .Live
    | 0x0080 => some .SoundEffects
    | _ => none

/-- `OctetsPerCodecFrame` from `src/generic_audio.rs`: a pair of u16 octet
bounds. -/
structure OctetsPerCodecFrame where
  min_octets : Nat
  max_octets : Nat
deriving DecidableEq

instance : Inhabited OctetsPerCodecFrame := ⟨⟨0, 0⟩⟩

/-- `OctetsPerCodecFrame::new` (`src/generic_audio.rs`): `min > max` hits
`defmt::panic!`, embedded as `none`; otherwise the pair is stored as given. -/
def OctetsPerCodecFrame.new (min_octets max_octets : Nat) :
    Option OctetsPerCodecFrame :=
  if min_octets > max_octets then none
  else some { min_octets := min_octets, max_octets := max_octets }

/-- `OctetsPerCodecFrame::encode`: `((max as u32) << 16) | min as u32`. -/
def OctetsPerCodecFrame.encode (o : OctetsPerCodecFrame) : Nat :=
  (o.max_octets <<< 16) ||| o.min_octets

/-- `OctetsPerCodecFrame::decode`: split the u32 into low/high 16-bit halves
and rebuild through `new` (so a decoded pair with `min > max` hits the same
constructor contract). -/
def OctetsPerCodecFrame.decode (encoded : Nat) : Option OctetsPerCodecFrame :=
  OctetsPerCodecFrame.new (encoded &&& 0xFFFF) (encoded >>> 16)

namespace TroubleAudio

/-- `SamplingFrequency` from `src/generic_audio/configuration.rs`: 13 named
rates with discriminants 0..12 plus an `Undefined` sentinel (discriminant 13). -/
inductive SamplingFrequency
  | Hz8000
  | Hz11025
  | Hz16000
  | Hz22050
  | Hz24000
  | Hz32000
  | Hz44100
  | Hz48000
  | Hz88200
  | Hz96000
  | Hz176400
  | Hz192000
  | Hz384000
  | Undefined
deriving DecidableEq

instance : Inhabited SamplingFrequency := ⟨SamplingFrequency.Hz8000⟩

/-- `SamplingFrequency::bit_position`: the discriminant (`*self as u8`). -/
def SamplingFrequency.bitPosition : SamplingFrequency → Nat
  | .Hz8000 => 0
  | .Hz11025 => 1
  | .Hz16000 => 2
  | .Hz22050 => 3
  | .Hz24000 => 4
  | .Hz32000 => 5
  | .Hz44100 => 6
  | .Hz48000 => 7
  | .Hz88200 => 8
  | .Hz96000 => 9
  | .Hz176400 => 10
  | .Hz192000 => 11
  | .Hz384000 => 12
  | .Undefined => 13

/-- `SupportedSamplingFrequencies` from `src/generic_audio/capabilities.rs`:
a newtype over the `u8` frequency field. -/
structure SupportedSamplingFrequencies where
  val : Nat
deriving DecidableEq

/-- `SupportedSamplingFrequencies::add`:
`*frequencies += 1 << sampling_frequency.bit_position();` on a `u8`
accumulator. Release-mode Rust masks the shift amount to the 8-bit width and
wraps the addition, embedded here as the explicit `% 8` and `% 256`
(debug builds panic on exactly the same inputs, so the wrap never masks a
divergence from ordinary arithmetic for in-range inputs). -/
def SupportedSamplingFrequencies.add (frequencies : Nat)
    (sampling_frequency : SamplingFrequency) : Nat :=
  (frequencies + (1 <<< (sampling_frequency.bitPosition % 8))) % 256

/-- `SupportedSamplingFrequencies::new`: fold `add` over the input slice
starting from `0`. -/
def SupportedSamplingFrequencies.new (frequencies : List SamplingFrequency) :
    SupportedSamplingFrequencies :=
  ⟨frequencies.foldl SupportedSamplingFrequencies.add 0⟩

instance : Inhabited SupportedSamplingFrequencies := ⟨⟨1⟩⟩

/-- `SupportedFrameDurations` newtype over `u8`
(`src/generic_audio/capabilities.rs`). -/
structure SupportedFrameDurations where
  val : Nat
deriving DecidableEq

/-- `SupportedFrameDurations::new`: bits 0/1 for support and, only when both
durations are supported, bits 4/5 for the preference flags. -/
def SupportedFrameDurations.new (support_7_5_ms support_10_ms prefer_7_5_ms
    prefer_10_ms : Bool) : SupportedFrameDurations :=
  ⟨(if support_7_5_ms then 0b00000001 else 0) |||
   (if support_10_ms then 0b00000010 else 0) |||
   (if support_7_5_ms && support_10_ms && prefer_7_5_ms then 0b00010000 else 0) |||
   (if support_7_5_ms && support_10_ms && prefer_10_ms then 0b00100000 else 0)⟩

instance : Inhabited SupportedFrameDurations :=
  ⟨SupportedFrameDurations.new false true false false⟩

/-- `SupportedAudioChannelCounts` newtype over `u8`
(`src/generic_audio/capabilities.rs`). -/
structure SupportedAudioChannelCounts where
  val : Nat
deriving DecidableEq

/-- `SupportedAudioChannelCounts::new`: counts 1..=8 set bit `count - 1`,
out-of-range counts produce the empty mask. -/
def SupportedAudioChannelCounts.new (count : Nat) : SupportedAudioChannelCounts :=
  if 1 ≤ count ∧ count ≤ 8 then ⟨1 <<< (count - 1)⟩ else ⟨0⟩

/-- `OctetsPerCodecFrame` from `src/trouble-audio/src/generic_audio.rs` (the
superseded iteration of the same type): its `new` stores the pair directly,
with no `min_octets ≤ max_octets` check. -/
structure OctetsPerCodecFrame where
  min_octets : Nat
  max_octets : Nat
deriving DecidableEq

/-- `OctetsPerCodecFrame::new` of `src/trouble-audio/src/generic_audio.rs`:
no validation, the arguments are stored as given. -/
def OctetsPerCodecFrame.new (min_octets max_octets : Nat) : OctetsPerCodecFrame :=
  { min_octets := min_octets, max_octets := max_octets }

/-- `ContextType` from `src/trouble-audio/src/generic_audio.rs`
(`repr(u16)`, 13 defined bitmask values plus `Undefined`). -/
inductive ContextType
  | Prohibited
  | Unspecified
  | Conversational
  | Media
  | Game
  | Instructional
  | VoiceAssistants
  | Live
  | SoundEffects
  | Notifications
  | Ringtone
  | Alerts
  | Alarm
  | Undefined
deriving DecidableEq

instance : Inhabited ContextType := ⟨ContextType.Prohibited⟩

/-- `AudioContexts` from `src/trouble-audio/src/pacs.rs`. -/
structure AudioContexts where
  sink_contexts : ContextType
  source_contexts : ContextType
deriving DecidableEq

instance : Inhabited AudioContexts := ⟨⟨default, default⟩⟩

/-- `ParentalRating` from `src/generic_audio/metadata.rs`. -/
inductive ParentalRating
  | NoRating
  | AnyAge
  | Age5orOlder
  | Age6orOlder
  | Age7orOlder
  | Age8orOlder
  | Age9orOlder
  | Age10orOlder
  | Age11orOlder
  | Age12orOlder
  | Age13orOlder
  | Age14orOlder
  | Age15orOlder
  | Age16orOlder
  | Age17orOlder
  | Age18orOlder
  | Undefined
deriving DecidableEq

/-- `Metadata` from `src/generic_audio/metadata.rs`; `ContentControlID = u8`
and byte strings are embedded as `Nat` lists, `&str` as `String`. -/
inductive Metadata
  | PreferredAudioContexts (contexts : ContextType)
  | StreamingAudioContexts (contexts : ContextType)
  | ProgramInfo (info : String)
  | Language (code : List Nat)
  | CCIDList (ccids : List Nat)
  | ParentalRating (rating : ParentalRating)
  | ProgramInfoURI (uri : String)
  | ExtendedMetadata
  | VenderSpecific
deriving DecidableEq

/-- `CodecSpecificCapabilities` from `src/generic_audio/capabilities.rs`. -/
inductive CodecSpecificCapabilities
  | SupportedSamplingFrequencies (v : SupportedSamplingFrequencies)
  | SupportedFrameDurations (v : SupportedFrameDurations)
  | SupportedAudioChannelCounts (v : SupportedAudioChannelCounts)
  | SupportedOctetsPerCodecFrame (v : OctetsPerCodecFrame)
  | SupportedMaxCodecFramesPerSDU (v : Nat)
deriving DecidableEq

/-- `CodecSpecificCapabilities::as_type` (`src/generic_audio/capabilities.rs`):
the one-byte type tag of each variant. -/
def CodecSpecificCapabilities.asType : CodecSpecificCapabilities → Nat
  | .SupportedSamplingFrequencies _ => 1
  | .SupportedFrameDurations _ => 2
  | .SupportedAudioChannelCounts _ => 3
  | .SupportedOctetsPerCodecFrame _ => 4
  | .SupportedMaxCodecFramesPerSDU _ => 5

/-- `CodecId` newtype over `u64` (`src/trouble-audio/src/lib.rs`);
`Default` is `0x000000000D`. -/
structure CodecId where
  val : Nat
deriving DecidableEq

instance : Inhabited CodecId := ⟨⟨0x0D⟩⟩

/-- `PACRecord` from `src/trouble-audio/src/pacs.rs`; the `heapless::Vec`
capacity bounds (5 codec ids, 5 capabilities, 13 metadata entries) are
capacities of the containers, not used by any statement below. -/
structure PACRecord where
  codec_id : List CodecId
  codec_specific_capabilities : List CodecSpecificCapabilities
  metadata : List Metadata
deriving DecidableEq

instance : Inhabited PACRecord := ⟨⟨[], [], []⟩⟩

/-- `PAC` from `src/trouble-audio/src/pacs.rs`: bounded record list plus a
record count that `PAC::new` derives from the list length. -/
structure PAC where
  number_of_pac_records : Nat
  pac_records : List PACRecord
deriving DecidableEq

/-- `PAC::new`: the count field is always the length of the record list. -/
def PAC.new (records : List PACRecord) : PAC :=
  { number_of_pac_records := records.length, pac_records := records }

instance : Inhabited PAC := ⟨PAC.new []⟩

end TroubleAudio

namespace TroubleAudio

/-- Characteristic properties from `trouble_host::prelude::CharacteristicProp`
(restricted to the properties this repository declares). -/
inductive CharacteristicProp
  | read
  | write
  | writeWithoutResponse
  | notify
deriving DecidableEq

/-- A built characteristic as returned by the attribute-table builder; only
the attribute handle is consulted by the event handlers. -/
structure Characteristic where
  handle : Nat
deriving DecidableEq

/-- One entry of the attribute table: the allocated handle, the 16-bit
characteristic UUID and the declared properties. The stored initial value is
owned by the table's storage buffers and is never consulted by the handlers
embedded below, so it is not tracked here. -/
structure TableEntry where
  handle : Nat
  uuid : Nat
  props : List CharacteristicProp
deriving DecidableEq

/-- The attribute table builder state: a monotone handle allocator plus the
entries added so far. -/
structure AttributeTable where
  nextHandle : Nat
  entries : List TableEntry
deriving DecidableEq

/-- `AttributeTable::new`. -/
def AttributeTable.empty : AttributeTable :=
  { nextHandle := 0, entries := [] }

/-- `ServiceBuilder::add_characteristic` / `add_characteristic_ro`: allocate
the next handle, record the declaration, return the built characteristic. -/
def AttributeTable.addCharacteristic (t : AttributeTable) (uuid : Nat)
    (props : List CharacteristicProp) : Characteristic × AttributeTable :=
  (⟨t.nextHandle⟩,
   { nextHandle := t.nextHandle + 1,
     entries := t.entries ++ [⟨t.nextHandle, uuid, props⟩] })

/-- `AttributeTable::add_service` + `ServiceBuilder::build`: the service
declaration consumes one handle, which `PacsServer::new` stores. -/
def AttributeTable.addService (t : AttributeTable) (uuid : Nat) :
    Nat × AttributeTable :=
  (t.nextHandle,
   { nextHandle := t.nextHandle + 1,
     entries := t.entries ++ [⟨t.nextHandle, uuid, []⟩] })

/-- The bitflags `AudioLocation` of `src/trouble-audio/src/generic_audio.rs`
wraps a raw u32 that retains every bit pattern; its values are embedded as the
raw bitmask. -/
abbrev AudioLocationBits := Nat

/-- `AudioLocation::RightSurround.bits()`: the largest defined single-bit
location value, used by the write handler's range comparison. -/
def rightSurroundBits : Nat := 0x08000000

/-- The 16-bit characteristic and service UUIDs from `bt_hci::uuid` used by
`PacsServer::new`. -/
def PUBLISHED_AUDIO_CAPABILITIES : Nat := 0x1850

def SINK_PAC : Nat := 0x2BC9

def SINK_AUDIO_LOCATIONS : Nat := 0x2BCA

def SOURCE_PAC : Nat := 0x2BCB

def SOURCE_AUDIO_LOCATIONS : Nat := 0x2BCC

def SUPPORTED_AUDIO_CONTEXTS : Nat := 0x2BCE

def AVAILABLE_AUDIO_CONTEXTS : Nat := 0x2BCD

/-- `PacsServer` from `src/trouble-audio/src/pacs.rs`: the service handle and
the six (four of them optional) characteristics. -/
structure PacsServer where
  handle : Nat
  sink_pac : Option Characteristic
  sink_audio_locations : Option Characteristic
  source_pac : Option Characteristic
  source_audio_locations : Option Characteristic
  supported_audio_contexts : Characteristic
  available_audio_contexts : Characteristic
deriving DecidableEq

/-- `PacsServer::new` (`src/trouble-audio/src/pacs.rs`): adds the PACS service
followed by the optional Sink PAC (read-only), optional Sink Audio Locations
(read/notify/write), optional Source PAC (read-only), optional Source Audio
Locations (read/notify/write) and the two mandatory context characteristics
(read-only), in source order. The function is total: no argument combination
is rejected (the doc comment "If you enable a pac, you must also enable the
corresponding location" is not enforced by any check). -/
def PacsServer.new (sink_pac : Option PAC)
    (sink_audio_locations : Option AudioLocationBits) (source_pac : Option PAC)
    (source_audio_locations : Option AudioLocationBits)
    (supported_audio_contexts available_audio_contexts : AudioContexts)
    (table : AttributeTable) : PacsServer × AttributeTable :=
  let svc := table.addService PUBLISHED_AUDIO_CAPABILITIES
  let sinkPacChar :=
    match sink_pac with
    | some _ =>
        let c := svc.2.addCharacteristic SINK_PAC [CharacteristicProp.read]
        (some c.1, c.2)
    | none => (none, svc.2)
  let sinkLocChar :=
    match sink_audio_locations with
    | some _ =>
        let c := sinkPacChar.2.addCharacteristic SINK_AUDIO_LOCATIONS
          [CharacteristicProp.read, CharacteristicProp.notify,
           CharacteristicProp.write]
        (some c.1, c.2)
    | none => (none, sinkPacChar.2)
  let sourcePacChar :=
    match source_pac with
    | some _ =>
        let c := sinkLocChar.2.addCharacteristic SOURCE_PAC
          [CharacteristicProp.read]
        (some c.1, c.2)
    | none => (none, sinkLocChar.2)
  let sourceLocChar :=
    match source_audio_locations with
    | some _ =>
        let c := sourcePacChar.2.addCharacteristic SOURCE_AUDIO_LOCATIONS
          [CharacteristicProp.read, CharacteristicProp.notify,
           CharacteristicProp.write]
        (some c.1, c.2)
    | none => (none, sourcePacChar.2)
  let supportedChar := sourceLocChar.2.addCharacteristic
    SUPPORTED_AUDIO_CONTEXTS [CharacteristicProp.read]
  let availableChar := supportedChar.2.addCharacteristic
    AVAILABLE_AUDIO_CONTEXTS [CharacteristicProp.read]
  ({ handle := svc.1,
     sink_pac := sinkPacChar.1,
     sink_audio_locations := sinkLocChar.1,
     source_pac := sourcePacChar.1,
     source_audio_locations := sourceLocChar.1,
     supported_audio_contexts := supportedChar.1,
     available_audio_contexts := availableChar.1 },
   availableChar.2)

/-- A GATT write event: the addressed attribute handle and the payload bytes. -/
structure WriteEvent where
  handle : Nat
  data : List Nat
deriving DecidableEq

/-- `u32::from_gatt` of trouble-host, which the bitflags
`AudioLocation::from_gatt` transmutes into a location bitmask: any 4-byte
buffer decodes to its little-endian u32 value, every other length is an
`InvalidLength` error. -/
def u32FromGatt (data : List Nat) : Except FromGattError Nat :=
  if data.length ≠ 4 then .error .invalidLength else .ok (le32 data)

/-- The inner accept/reject logic of `PacsServer::handle_write_event` for a
Sink/Source Audio Locations handle: accept when the payload is 4 bytes long,
decodes, and its bitmask value is numerically at most
`AudioLocation::RightSurround.bits()`; reject with `WRITE_REQUEST_REJECTED`
otherwise. -/
def locationsWriteCheck (event : WriteEvent) : Except AttErrorCode Unit :=
  if event.data.length = 4 then
    match u32FromGatt event.data with
    | .ok bits =>
        if bits ≤ rightSurroundBits then .ok ()
        else .error .writeRequestRejected
    | .error _ => .error .writeRequestRejected
  else .error .writeRequestRejected

/-- The sink block of `PacsServer::handle_write_event`: entered only when
`sink_pac` is present (the `sink_audio_locations` check is nested inside the
`if let Some(sink_pac)` in the source); `none` means fall through. -/
def PacsServer.handleWriteSink (s : PacsServer) (event : WriteEvent) :
    Option (Except AttErrorCode Unit) :=
  match s.sink_pac with
  | none => none
  | some sink_pac =>
    if event.handle = sink_pac.handle then
      some (.error .writeNotPermitted)
    else
      match s.sink_audio_locations with
      | none => none
      | some sal =>
        if event.handle = sal.handle then some (locationsWriteCheck event)
        else none

/-- The source block of `PacsServer::handle_write_event`, same shape as the
sink block. -/
def PacsServer.handleWriteSource (s : PacsServer) (event : WriteEvent) :
    Option (Except AttErrorCode Unit) :=
  match s.source_pac with
  | none => none
  | some source_pac =>
    if event.handle = source_pac.handle then
      some (.error .writeNotPermitted)
    else
      match s.source_audio_locations with
      | none => none
      | some sal =>
        if event.handle = sal.handle then some (locationsWriteCheck event)
        else none

/-- `PacsServer::handle_write_event` (`src/trouble-audio/src/pacs.rs`):
the sink block, then the source block, then the two always-read-only context
characteristics, then `None` (no handler). -/
def PacsServer.handleWriteEvent (s : PacsServer) (event : WriteEvent) :
    Option (Except AttErrorCode Unit) :=
  match s.handleWriteSink event with
  | some r => some r
  | none =>
    match s.handleWriteSource event with
    | some r => some r
    | none =>
      if event.handle = s.supported_audio_contexts.handle then
        some (.error .writeNotPermitted)
      else if event.handle = s.available_audio_contexts.handle then
        some (.error .writeNotPermitted)
      else none

end TroubleAudio

/-- `PhySet` from `trouble_host::connection`; only `M2` is used by this
repository (as the default preferred PHY), the other values are carried for
completeness of the embedding. -/
inductive PhySet
  | M1
  | M2
  | Coded
deriving DecidableEq

/-- `CodecId` newtype over `u64` from `src/lib.rs`; `Default` is
`0x000000000D`. -/
structure CodecId where
  val : Nat
deriving DecidableEq

instance : Inhabited CodecId := ⟨⟨0x0D⟩⟩

/-- `AseControlOperation` from `src/ascs.rs`: the nine ASE control
operations. -/
inductive AseControlOperation
  | ConfigCodec
  | ConfigQos
  | Enable
  | ReceiverStartReady
  | ReceiverStopReady
  | Disable
  | UpdateMetadata
  | Release
  | Released
deriving DecidableEq

/-- `InitiatingDevice` from `src/ascs.rs`. `ClientOrServer` is a third enum
value of its own ("covers cases where either can initiate"); it is matched
literally by `transition`, not treated as a wildcard. -/
inductive InitiatingDevice
  | Client
  | Server
  | ClientOrServer
deriving DecidableEq

/-- `AseType` from `src/ascs.rs`. `All` is a third enum value of its own
("covers cases where the operation is valid for all types"); it is matched
literally by `transition`, not treated as a wildcard. -/
inductive AseType
  | Source
  | Sink
  | All
deriving DecidableEq

/-- `AseParamsCodecConfigured` from `src/ascs.rs`; the `&'static [u8]`
configuration blob is a `List Nat`. -/
structure AseParamsCodecConfigured where
  framing : Nat
  preferred_phy : PhySet
  preferred_retransmission_number : Nat
  max_transport_latency : Nat
  presentation_delay_min : Nat
  presentation_delay_max : Nat
  preferred_presentation_delay_min : Nat
  preferred_presentation_delay_max : Nat
  codec_id : CodecId
  codec_specific_configuration_length : Nat
  codec_specific_configuration : Option (List Nat)
deriving DecidableEq

/-- The `Default` impl of `AseParamsCodecConfigured`: all numeric fields 0,
preferred PHY `M2`, default codec id, no configuration blob. -/
instance : Inhabited AseParamsCodecConfigured :=
  ⟨{ framing := 0
     preferred_phy := PhySet.M2
     preferred_retransmission_number := 0
     max_transport_latency := 0
     presentation_delay_min := 0
     presentation_delay_max := 0
     preferred_presentation_delay_min := 0
     preferred_presentation_delay_max := 0
     codec_id := default
     codec_specific_configuration_length := 0
     codec_specific_configuration := none }⟩

/-- `AseParamsQoSConfigured` from `src/ascs.rs`; the `[u8; 3]` fields are
byte triples. -/
structure AseParamsQoSConfigured where
  cig_id : Nat
  cis_id : Nat
  sdu_interval : Nat × Nat × Nat
  framing : Nat
  phy : PhySet
  max_sdu : Nat
  retransmission_number : Nat
  max_transport_latency : Nat
  presentation_delay : Nat × Nat × Nat
deriving DecidableEq

/-- The `Default` impl of `AseParamsQoSConfigured`: zeros and PHY `M2`. -/
instance : Inhabited AseParamsQoSConfigured :=
  ⟨{ cig_id := 0
     cis_id := 0
     sdu_interval := (0, 0, 0)
     framing := 0
     phy := PhySet.M2
     max_sdu := 0
     retransmission_number := 0
     max_transport_latency := 0
     presentation_delay := (0, 0, 0) }⟩

/-- `AseParamsOther` from `src/ascs.rs` (parameters of the `Enabling`,
`Streaming` and `Disabling` states). -/
structure AseParamsOther where
  cig_id : Nat
  cis_id : Nat
  metadata : Option Nat
deriving DecidableEq

instance : Inhabited AseParamsOther := ⟨{ cig_id := 0, cis_id := 0, metadata := none }⟩

/-- `AseState` from `src/ascs.rs`: the seven profile states (three of them
carrying state-specific parameters) plus the `RFU` variant. -/
inductive AseState
  | Idle
  | CodecConfigured (params : AseParamsCodecConfigured)
  | QosConfigured (params : AseParamsQoSConfigured)
  | Enabling (params : AseParamsOther)
  | Streaming (params : AseParamsOther)
  | Disabling (params : AseParamsOther)
  | Releasing
  | RFU
deriving DecidableEq

instance : Inhabited AseState := ⟨AseState.Idle⟩

/-- `AseState::transition` from `src/ascs.rs`, arm for arm. Every pattern is
matched literally, including the tuples whose initiator is the enum value
`ClientOrServer` and whose ASE type is the enum value `All`; the trailing
catch-all returns `Disabling(Default::default())`. -/
def AseState.transition (s : AseState) (operation : AseControlOperation)
    (initiator : InitiatingDevice) (ase_type : AseType) : AseState :=
  match s, operation, initiator, ase_type with
  | .Idle, .ConfigCodec, .ClientOrServer, .All => .CodecConfigured default
  | .CodecConfigured _, .ConfigCodec, .ClientOrServer, .All =>
      .CodecConfigured default
  | .CodecConfigured _, .Release, .ClientOrServer, .All => .Releasing
  | .CodecConfigured _, .ConfigQos, .Client, .All => .QosConfigured default
  | .QosConfigured _, .ConfigCodec, .ClientOrServer, .All =>
      .CodecConfigured default
  | .QosConfigured _, .ConfigQos, .Client, .All => .QosConfigured default
  | .QosConfigured _, .Release, .ClientOrServer, .All => .Releasing
  | .QosConfigured _, .Enable, .Client, .All => .Enabling default
  | .Enabling _, .Release, .ClientOrServer, .All => .Releasing
  | .Enabling _, .UpdateMetadata, .ClientOrServer, .All => .Enabling default
  | .Enabling _, .Disable, .ClientOrServer, .Source => .Disabling default
  | .Enabling _, .Disable, .ClientOrServer, .Sink => .QosConfigured default
  | .Enabling _, .ReceiverStartReady, .Client, .Source => .Streaming default
  | .Enabling _, .ReceiverStartReady, .Server, .Sink => .Streaming default
  | .Streaming _, .UpdateMetadata, .ClientOrServer, .All => .Streaming default
  | .Streaming _, .Disable, .ClientOrServer, .Source => .Disabling default
  | .Streaming _, .Disable, .ClientOrServer, .Sink => .QosConfigured default
  | .Streaming _, .Release, .ClientOrServer, .All => .Releasing
  | .Disabling _, .ReceiverStopReady, .Client, .Source => .QosConfigured default
  | .Disabling _, .Release, .ClientOrServer, .Source => .Releasing
  | .Releasing, .Released, .Server, .All => .Idle
  | _, _, _, _ => .Disabling default

/-- Whether an input tuple matches one of the 21 explicit (non-catch-all)
arms of `AseState::transition`; the arms are listed in source order. -/
def matchesListedTransitionRule (s : AseState) (operation : AseControlOperation)
    (initiator : InitiatingDevice) (ase_type : AseType) : Bool :=
  match s, operation, initiator, ase_type with
  | .Idle, .ConfigCodec, .ClientOrServer, .All => true
  | .CodecConfigured _, .ConfigCodec, .ClientOrServer, .All => true
  | .CodecConfigured _, .Release, .ClientOrServer, .All => true
  | .CodecConfigured _, .ConfigQos, .Client, .All => true
  | .QosConfigured _, .ConfigCodec, .ClientOrServer, .All => true
  | .QosConfigured _, .ConfigQos, .Client, .All => true
  | .QosConfigured _, .Release, .ClientOrServer, .All => true
  | .QosConfigured _, .Enable, .Client, .All => true
  | .Enabling _, .Release, .ClientOrServer, .All => true
  | .Enabling _, .UpdateMetadata, .ClientOrServer, .All => true
  | .Enabling _, .Disable, .ClientOrServer, .Source => true
  | .Enabling _, .Disable, .ClientOrServer, .Sink => true
  | .Enabling _, .ReceiverStartReady, .Client, .Source => true
  | .Enabling _, .ReceiverStartReady, .Server, .Sink => true
  | .Streaming _, .UpdateMetadata, .ClientOrServer, .All => true
  | .Streaming _, .Disable, .ClientOrServer, .Source => true
  | .Streaming _, .Disable, .ClientOrServer, .Sink => true
  | .Streaming _, .Release, .ClientOrServer, .All => true
  | .Disabling _, .ReceiverStopReady, .Client, .Source => true
  | .Disabling _, .Release, .ClientOrServer, .Source => true
  | .Releasing, .Released, .Server, .All => true
  | _, _, _, _ => false

/-- `true` exactly on `CodecConfigured` states (any parameters). -/
def AseState.isCodecConfigured : AseState → Bool
  | .CodecConfigured _ => true
  | _ => false

/-- `true` exactly on `QosConfigured` states (any parameters). -/
def AseState.isQosConfigured : AseState → Bool
  | .QosConfigured _ => true
  | _ => false

/-- Whether a state's embedded parameter payload equals that state shape's
`Default::default()`; parameterless states hold trivially. -/
def AseState.hasDefaultParams : AseState → Bool
  | .Idle => true
  | .CodecConfigured p => p = default
  | .QosConfigured p => p = default
  | .Enabling p => p = default
  | .Streaming p => p = default
  | .Disabling p => p = default
  | .Releasing => true
  | .RFU => true

/-- The states reachable from `Idle` by zero or more `transition` steps. -/
inductive ReachableFromIdle : AseState → Prop
  | base : ReachableFromIdle .Idle
  | step (operation : AseControlOperation) (initiator : InitiatingDevice)
      (ase_type : AseType) {s : AseState} :
      ReachableFromIdle s →
      ReachableFromIdle (s.transition operation initiator ase_type)

namespace TroubleAudio

/-- A PACS server built with only the sink sub-tree: Sink PAC plus Sink Audio
Locations, whose initial bitmask declares every defined location supported
(`0x0FFFFFFF`). The builder allocates handle 0 to the service declaration,
handle 1 to the Sink PAC characteristic and handle 2 to the Sink Audio
Locations characteristic. -/
def sinkOnlyPacsServer : PacsServer :=
  (PacsServer.new (some (PAC.new [])) (some 0x0FFFFFFF) none none default
    default AttributeTable.empty).1

end TroubleAudio

/-! ## Theorems -/

/-- Helper: the low 16 bits of `(M <<< 16) ||| m` recover `m` when `m` fits
in 16 bits. -/
theorem lor_shiftLeft16_and_mask (m M : Nat) (hm : m < 65536) :
    ((M <<< 16) ||| m) &&& 0xFFFF = m := by
  have h2 : (0xFFFF : Nat) = 2 ^ 16 - 1 := by norm_num
  rw [h2, Nat.and_pow_two_sub_one_eq_mod]
  apply Nat.eq_of_testBit_eq
  intro i
  rw [Nat.testBit_mod_two_pow, Nat.testBit_lor, Nat.testBit_shiftLeft]
  by_cases h : i < 16
  · simp [h, show ¬ 16 ≤ i by omega]
  · have hle : (65536 : Nat) ≤ 2 ^ i := by
      calc (65536 : Nat) = 2 ^ 16 := by norm_num
        _ ≤ 2 ^ i := Nat.pow_le_pow_right (by norm_num) (by omega)
    have hmb : m.testBit i = false := Nat.testBit_lt_two_pow (lt_of_lt_of_le hm hle)
    simp [h, hmb]

/-- Helper: the high bits of `(M <<< 16) ||| m` recover `M` when `m` fits in
16 bits. -/
theorem lor_shiftLeft16_shiftRight (m M : Nat) (hm : m < 65536) :
    ((M <<< 16) ||| m) >>> 16 = M := by
  apply Nat.eq_of_testBit_eq
  intro i
  rw [Nat.testBit_shiftRight, Nat.testBit_lor, Nat.testBit_shiftLeft]
  have hle : (65536 : Nat) ≤ 2 ^ (16 + i) := by
    calc (65536 : Nat) = 2 ^ 16 := by norm_num
      _ ≤ 2 ^ (16 + i) := Nat.pow_le_pow_right (by norm_num) (by omega)
  have hmb : m.testBit (16 + i) = false :=
    Nat.testBit_lt_two_pow (lt_of_lt_of_le hm hle)
  simp [hmb, (by omega : 16 ≤ 16 + i), (by omega : 16 + i - 16 = i)]

/-- C2: `AseState::transition` is total — every tuple of state, operation,
initiator and ASE type (including the `RFU` state, so all 8 × 9 × 3 × 3
inputs) yields a defined output state — and every tuple not matched by one of
the 21 explicit transition arms yields `Disabling(Default::default())`, the
catch-all fallback. -/
theorem ase_transition_total_with_disabling_fallback :
    ∀ (s : AseState) (op : AseControlOperation) (i : InitiatingDevice)
      (d : AseType),
      (∃ t, AseState.transition s op i d = t) ∧
      (matchesListedTransitionRule s op i d = false →
        AseState.transition s op i d = .Disabling default) := by
  refine fun s op i d => ⟨⟨_, rfl⟩, fun h => ?_⟩
  cases s <;> cases op <;> cases i <;> cases d <;>
    first | rfl | exact Bool.noConfusion h

/-- Witness for C2 at the unlisted tuple
`(Idle, Enable, Client, Sink)`. -/
theorem ase_transition_total_with_disabling_fallback_witness :
    matchesListedTransitionRule .Idle .Enable .Client .Sink = false ∧
    AseState.transition .Idle .Enable .Client .Sink = .Disabling default :=
  ⟨rfl,
   (ase_transition_total_with_disabling_fallback .Idle .Enable .Client
      .Sink).2 rfl⟩

/-- C3 (counterexample): the claim quantifies the first step over every
initiator and direction, but the patterns of `transition` match the literal
enum values `ClientOrServer` and `All`; with the concrete initiator `Client`
and direction `Sink`, `ConfigCodec` from `Idle` falls through to the
`Disabling` fallback instead of producing `CodecConfigured`. -/
theorem ase_happy_path_fails_for_literal_client_initiator :
    AseState.transition .Idle .ConfigCodec .Client .Sink = .Disabling default ∧
    (AseState.transition .Idle .ConfigCodec .Client .Sink).isCodecConfigured =
      false :=
  ⟨rfl, rfl⟩

/-- C3 (amended): the happy-path establishment sequence holds for the inputs
the code encodes: `ConfigCodec` with the literal `ClientOrServer` initiator
and `All` type, then `ConfigQos` and `Enable` with initiator `Client` and
type `All` (from a `CodecConfigured` resp. `QosConfigured` state with any
parameters), then `ReceiverStartReady` with initiator `Client` and type
`Source`. -/
theorem ase_happy_path_for_encoded_either_inputs :
    AseState.transition .Idle .ConfigCodec .ClientOrServer .All =
      .CodecConfigured default ∧
    (∀ p, AseState.transition (.CodecConfigured p) .ConfigQos .Client .All =
      .QosConfigured default) ∧
    (∀ p, AseState.transition (.QosConfigured p) .Enable .Client .All =
      .Enabling default) ∧
    (∀ p, AseState.transition (.Enabling p) .ReceiverStartReady .Client
      .Source = .Streaming default) :=
  ⟨rfl, fun _ => rfl, fun _ => rfl, fun _ => rfl⟩

/-- C4 (counterexample): `Disable` from `Streaming` with direction `Sink` and
the literal initiator `Client` does not return `QosConfigured` as the claim
states for "every initiator": the pattern requires the literal
`ClientOrServer`, so the tuple falls through to the `Disabling` fallback. -/
theorem ase_disable_sink_fails_for_literal_client_initiator :
    AseState.transition (.Streaming default) .Disable .Client .Sink =
      .Disabling default ∧
    (AseState.transition (.Streaming default) .Disable .Client
      .Sink).isQosConfigured = false :=
  ⟨rfl, rfl⟩

/-- C4 (amended): the direction-dependent `Disable` branch exists only for
the literal initiator value `ClientOrServer`: from `Enabling` or `Streaming`
(any parameters), `Disable`/`ClientOrServer` with `Sink` yields
`QosConfigured(default)` and with `Source` yields `Disabling(default)`, while
the literal initiators `Client` and `Server` fall through to the `Disabling`
fallback for both directions. -/
theorem ase_disable_direction_dependent_for_clientorserver :
    ∀ p : AseParamsOther,
      (AseState.transition (.Enabling p) .Disable .ClientOrServer .Sink =
        .QosConfigured default) ∧
      (AseState.transition (.Enabling p) .Disable .ClientOrServer .Source =
        .Disabling default) ∧
      (AseState.transition (.Streaming p) .Disable .ClientOrServer .Sink =
        .QosConfigured default) ∧
      (AseState.transition (.Streaming p) .Disable .ClientOrServer .Source =
        .Disabling default) ∧
      (AseState.transition (.Enabling p) .Disable .Client .Sink =
        .Disabling default) ∧
      (AseState.transition (.Enabling p) .Disable .Server .Sink =
        .Disabling default) ∧
      (AseState.transition (.Streaming p) .Disable .Client .Sink =
        .Disabling default) ∧
      (AseState.transition (.Streaming p) .Disable .Server .Sink =
        .Disabling default) :=
  fun _ => ⟨rfl, rfl, rfl, rfl, rfl, rfl, rfl, rfl⟩

/-- C5: state parameters are never carried across a transition — for every
input state (arbitrary embedded parameters) and every
operation/initiator/type, the output state's parameter payload is that state
shape's default — and consequently every state reachable from `Idle` by
transitions has default parameters. -/
theorem ase_transition_resets_params_to_default :
    (∀ (s : AseState) (op : AseControlOperation) (i : InitiatingDevice)
      (d : AseType), (AseState.transition s op i d).hasDefaultParams = true) ∧
    (∀ s : AseState, ReachableFromIdle s → s.hasDefaultParams = true) := by
  have h1 : ∀ (s : AseState) (op : AseControlOperation) (i : InitiatingDevice)
      (d : AseType), (AseState.transition s op i d).hasDefaultParams = true := by
    intro s op i d
    cases s <;> cases op <;> cases i <;> cases d <;> rfl
  refine ⟨h1, fun s h => ?_⟩
  induction h with
  | base => rfl
  | step op i d _ _ => exact h1 _ op i d

/-- Witness for C5 at the reachable state
`transition(Idle, ConfigCodec, ClientOrServer, All)`. -/
theorem ase_transition_resets_params_to_default_witness :
    (AseState.transition .Idle .ConfigCodec .ClientOrServer
      .All).hasDefaultParams = true :=
  ase_transition_resets_params_to_default.2 _
    (ReachableFromIdle.step .ConfigCodec .ClientOrServer .All
      ReachableFromIdle.base)

/-- C6: `SupportedSamplingFrequencies::add` accumulates with `+=`, not `|=`.
Adding a frequency that is already present does not leave the set unchanged:
`new(&[Hz8000, Hz8000])` produces the mask `0b10` — bit 0 (Hz8000) is clear
and bit 1 (Hz11025) is set — instead of the OR-accumulated mask `0b01`, and a
single `add` of an already-present `Hz8000` to the mask `1` changes it. -/
theorem sampling_frequencies_duplicate_add_corrupts_mask :
    TroubleAudio.SupportedSamplingFrequencies.new
      [.Hz8000, .Hz8000] = ⟨2⟩ ∧
    (TroubleAudio.SupportedSamplingFrequencies.new
      [.Hz8000, .Hz8000]).val.testBit 0 = false ∧
    (TroubleAudio.SupportedSamplingFrequencies.new
      [.Hz8000, .Hz8000]).val.testBit 1 = true ∧
    TroubleAudio.SupportedSamplingFrequencies.add 1
      TroubleAudio.SamplingFrequency.Hz8000 ≠ 1 := by
  decide

/-- C8: the two iterations of `OctetsPerCodecFrame::new` disagree on the
`min ≤ max` contract at the input `(5, 3)`: the `src/generic_audio.rs`
constructor fails (its `defmt::panic!`, embedded as `none`) as the claim
states, while the `src/trouble-audio/src/generic_audio.rs` constructor
silently accepts the pair and yields a value violating
`min_octets ≤ max_octets`. -/
theorem octets_new_min_max_contract_divergence :
    OctetsPerCodecFrame.new 5 3 = none ∧
    TroubleAudio.OctetsPerCodecFrame.new 5 3 =
      { min_octets := 5, max_octets := 3 } ∧
    ¬((TroubleAudio.OctetsPerCodecFrame.new 5 3).min_octets ≤
      (TroubleAudio.OctetsPerCodecFrame.new 5 3).max_octets) :=
  ⟨rfl, rfl, by decide⟩

/-- C7: decode-of-encode round trips — every `AudioLocation` survives
`from_gatt ∘ to_gatt` with a 4-byte encoding, every `ContextType` survives
the (spec-modelled) 2-byte decode/encode, and every `OctetsPerCodecFrame`
obtained from `new` over u16 inputs survives `decode ∘ encode` with the pack
fitting 4 bytes (low 16 bits min, high 16 bits max). -/
theorem codec_wire_value_roundtrip :
    (∀ a : AudioLocation, AudioLocation.fromGatt a.toGatt = .ok a ∧
      a.toGatt.length = 4) ∧
    (∀ c : ContextType, ContextType.decode c.encode = some c ∧
      c.encode.length = 2) ∧
    (∀ (min_octets max_octets : Nat) (v : OctetsPerCodecFrame),
      min_octets < 65536 → max_octets < 65536 →
      OctetsPerCodecFrame.new min_octets max_octets = some v →
      OctetsPerCodecFrame.decode v.encode = some v ∧ v.encode < 2 ^ 32) := by
  refine ⟨fun a => ⟨by cases a <;> rfl, by cases a <;> rfl⟩,
    fun c => ⟨by cases c <;> rfl, by cases c <;> rfl⟩, ?_⟩
  intro m M v hm hM hnew
  unfold OctetsPerCodecFrame.new at hnew
  rcases Nat.lt_or_ge M m with hgt | hle
  · rw [if_pos hgt] at hnew
    exact absurd hnew (by simp)
  · rw [if_neg (by omega)] at hnew
    obtain rfl : OctetsPerCodecFrame.mk m M = v := Option.some.inj hnew
    constructor
    · show OctetsPerCodecFrame.decode ((M <<< 16) ||| m) = _
      unfold OctetsPerCodecFrame.decode
      rw [lor_shiftLeft16_and_mask m M hm, lor_shiftLeft16_shiftRight m M hm]
      unfold OctetsPerCodecFrame.new
      rw [if_neg (by omega)]
    · show (M <<< 16) ||| m < 2 ^ 32
      refine Nat.or_lt_two_pow ?_ (by omega)
      rw [Nat.shiftLeft_eq]
      calc M * 2 ^ 16 ≤ 65535 * 2 ^ 16 :=
            Nat.mul_le_mul_right _ (by omega)
        _ < 2 ^ 32 := by norm_num

/-- Witness for C7 at `FrontLeft`, `Media` and the default-PAC octet range
`(30, 50)`. -/
theorem codec_wire_value_roundtrip_witness :
    AudioLocation.fromGatt (AudioLocation.toGatt .FrontLeft) =
      .ok .FrontLeft ∧
    ContextType.decode (ContextType.encode .Media) = some .Media ∧
    OctetsPerCodecFrame.decode
      (OctetsPerCodecFrame.encode ⟨30, 50⟩) = some ⟨30, 50⟩ :=
  ⟨(codec_wire_value_roundtrip.1 .FrontLeft).1,
   (codec_wire_value_roundtrip.2.1 .Media).1,
   (codec_wire_value_roundtrip.2.2 30 50 ⟨30, 50⟩ (by norm_num) (by norm_num)
      rfl).1⟩

/-- C10: `AudioLocation::from_gatt` returns `Ok` for every 4-byte buffer, and
every value that is not one of the 29 defined wire values (zero plus the 28
single-position bits) — in particular any OR of two or more defined
positions — decodes to the `Undefined` sentinel. -/
theorem audio_location_decode_total_and_undefined_for_unknown :
    (∀ data : List Nat, data.length = 4 →
      ∃ a, AudioLocation.fromGatt data = .ok a) ∧
    (∀ n : Nat, n ∉ definedAudioLocationValues →
      AudioLocation.ofValue n = .Undefined) := by
  constructor
  · intro data h
    exact ⟨AudioLocation.ofValue (le32 data), by simp [AudioLocation.fromGatt, h]⟩
  · intro n hn
    unfold AudioLocation.ofValue
    split <;> first | rfl | simp_all [definedAudioLocationValues]

/-- Witness for C10 at the buffer `[3, 0, 0, 0]` and the value
`3 = FrontLeft | FrontRight` (an OR of two defined positions). -/
theorem audio_location_decode_total_and_undefined_for_unknown_witness :
    (∃ a, AudioLocation.fromGatt [3, 0, 0, 0] = .ok a) ∧
    AudioLocation.ofValue 3 = .Undefined :=
  ⟨audio_location_decode_total_and_undefined_for_unknown.1 [3, 0, 0, 0] rfl,
   audio_location_decode_total_and_undefined_for_unknown.2 3 (by decide)⟩

/-- C1: the Sink Audio Locations write handler of
`PacsServer::handle_write_event` accepts the 4-byte writes `0x00000001`
(`FrontLeft`) and `0x08000000` (`RightSurround`) but rejects their bitwise OR
`0x08000001` (payload `01 00 00 08`) with `WRITE_REQUEST_REJECTED`, because
it compares the decoded value numerically against
`RightSurround.bits() = 0x08000000` instead of testing for bits outside the
supported mask. No supported-location mask can describe this accept set: a
mask test `decoded &&& !supported == 0` is closed under OR of accepted
values, and this accept set is not. -/
theorem pacs_locations_write_rejects_defined_bit_combination :
    TroubleAudio.sinkOnlyPacsServer.handleWriteEvent
      { handle := 2, data := [0x01, 0x00, 0x00, 0x00] } = some (.ok ()) ∧
    TroubleAudio.sinkOnlyPacsServer.handleWriteEvent
      { handle := 2, data := [0x00, 0x00, 0x00, 0x08] } = some (.ok ()) ∧
    le32 [0x01, 0x00, 0x00, 0x08] =
      (le32 [0x01, 0x00, 0x00, 0x00] ||| le32 [0x00, 0x00, 0x00, 0x08]) ∧
    TroubleAudio.sinkOnlyPacsServer.handleWriteEvent
      { handle := 2, data := [0x01, 0x00, 0x00, 0x08] } =
      some (.error .writeRequestRejected) :=
  ⟨rfl, rfl, rfl, rfl⟩

/-- C9 (counterexample): `PacsServer::new` succeeds when given a Sink PAC but
no Sink Audio Locations — the built server exposes the Sink PAC
characteristic (handle 1) with no Sink Audio Locations characteristic — so
constructing one without the other is not a build-time failure. -/
theorem pacs_new_builds_pac_without_locations :
    (TroubleAudio.PacsServer.new (some (TroubleAudio.PAC.new [])) none none
      none default default TroubleAudio.AttributeTable.empty).1.sink_pac =
      some ⟨1⟩ ∧
    (TroubleAudio.PacsServer.new (some (TroubleAudio.PAC.new [])) none none
      none default default
      TroubleAudio.AttributeTable.empty).1.sink_audio_locations = none :=
  ⟨rfl, rfl⟩

/-- C9 (amended): the PAC/Locations pairing is only a documented caller
obligation ("If you enable a pac, you must also enable the corresponding
location"), not an enforced contract: `PacsServer::new` is total and for
every combination of the four optional arguments the built server exposes
exactly the characteristics whose arguments were supplied. -/
theorem pacs_new_total_presence_matches_inputs :
    ∀ (sink_pac : Option TroubleAudio.PAC)
      (sink_audio_locations : Option TroubleAudio.AudioLocationBits)
      (source_pac : Option TroubleAudio.PAC)
      (source_audio_locations : Option TroubleAudio.AudioLocationBits)
      (sup av : TroubleAudio.AudioContexts)
      (t : TroubleAudio.AttributeTable),
      ((TroubleAudio.PacsServer.new sink_pac sink_audio_locations source_pac
          source_audio_locations sup av t).1.sink_pac.isSome =
        sink_pac.isSome) ∧
      ((TroubleAudio.PacsServer.new sink_pac sink_audio_locations source_pac
          source_audio_locations sup av t).1.sink_audio_locations.isSome =
        sink_audio_locations.isSome) ∧
      ((TroubleAudio.PacsServer.new sink_pac sink_audio_locations source_pac
          source_audio_locations sup av t).1.source_pac.isSome =
        source_pac.isSome) ∧
      ((TroubleAudio.PacsServer.new sink_pac sink_audio_locations source_pac
          source_audio_locations sup av t).1.source_audio_locations.isSome =
        source_audio_locations.isSome) := by
  intro sp sal srcp srcl sup av t
  cases sp <;> cases sal <;> cases srcp <;> cases srcl <;>
    exact ⟨rfl, rfl, rfl, rfl⟩
